import Mathlib

/-!
Shallow embedding of the chord-difficulty engine of the jazz-fretboard
repository (src/chord_difficulty_scorer.py, class `ChordDifficultyScorer`),
together with theorems settling the frozen claims about its specification.

Modelling conventions:
* A fingering entry is `Option Int`: `none` is Python `None` (unplayed),
  `some 0` is an open string, `some k` with `0 < k` a pressed fret
  (the constructor also admits negative ints such as `-1`, which the code
  treats like unplayed because of the `f > 0` filter).
* Python floats are modelled as `ℚ` (the score arithmetic is sums and one
  division, all exact here).
* The mutable field `last_analysis_summary` is threaded explicitly as an
  `Option Verdict` state (`none` models the empty string, which is falsy
  in Python; `some v` models the non-empty impossibility message, carried
  structurally rather than as formatted text).
* The human-readable analysis log is carried structurally (`LogEntry`),
  one constructor per `analysis_log.append` site, holding the exact numbers
  the Python f-strings would render.
-/

namespace JazzFretboard

/-- A guitar fingering: one entry per string, in string-index order.
Python: the `fingering` list given to `ChordDifficultyScorer.__init__`. -/
abbrev Fingering := List (Option Int)

/-- Python line 23, the notes_to_fret dict: one entry per string whose value
is not None and is positive, mapping string index to fret.  The insertion
order of the dict is ascending string index, which the list order keeps. -/
def notesToFret (f : Fingering) : List (Nat × Int) :=
  f.enum.filterMap fun p =>
    match p.2 with
    | some fr => if 0 < fr then some (p.1, fr) else none
    | none => none

/-- The impossibility messages written to `last_analysis_summary`, carried
structurally.  `blocked fr s lowest` renders as the Python line 56 text
(Note at fret fr on string s+1 is blocked by the index finger barre on
fret lowest); `insufficient r` renders as the Python line 62 text
(Requires r fingers, but only 4 are available). -/
inductive Verdict where
  | blocked (fret : Int) (stringIdx : Nat) (lowestFret : Int)
  | insufficient (required : Nat)
deriving DecidableEq, Repr

/-- One analysis-log line, per `analysis_log.append` site of `analyze`
(Python lines 97, 103, 108, 118, 120, 131, 136), holding the exact numbers
the f-strings interpolate. -/
inductive LogEntry where
  | fingersUsed (n : Nat)
  | fretSpan (span : Int)
  | avgPosition (avg : ℚ)
  | barreDetected
  | barreLength (extraStrings : Nat)
  | fretInversion (s1 s2 : Nat) (penalty : ℚ)
  | fingerCrossing (s1 s2 : Nat)
deriving DecidableEq, Repr

/-- The summary text returned by `analyze`, carried structurally:
either the literal "No notes to play.", an impossibility message, or the
proposed-fingering report (Python lines 138-140: the assignment sorted by
string index, followed by the analysis log). -/
inductive Summary where
  | noNotes
  | verdict (v : Verdict)
  | report (proposed : List (Nat × Int × Nat)) (log : List LogEntry)
deriving DecidableEq, Repr

/-- Insert an element into a list so that elements on which `le` holds stay in
front.  Used to model Python `sorted`; every use below sorts by a key that is
distinct across the list, so any correct sort yields the identical result. -/
def insertLe (le : α → α → Bool) (x : α) : List α → List α
  | [] => [x]
  | y :: ys => if le x y then x :: y :: ys else y :: insertLe le x ys

/-- Insertion sort modelling Python `sorted` (all uses have pairwise-distinct
sort keys, so stability is irrelevant and the result is the unique sorted
permutation). -/
def sortLe (le : α → α → Bool) : List α → List α
  | [] => []
  | x :: xs => insertLe le x (sortLe le xs)

/-- Python line 41: `lowest_fret = min(notes_to_assign.values())`, for a
non-empty dict whose first entry is `n0` and remaining entries `rest`. -/
def lowestOf (n0 : Nat × Int) (rest : List (Nat × Int)) : Int :=
  rest.foldl (fun m p => min m p.2) n0.2

/-- Python line 44: the strings pressed at the anchor (lowest) fret, in
string-index order. -/
def anchorsOf (notes : List (Nat × Int)) (lowest : Int) : List Nat :=
  (notes.filter fun p => decide (p.2 = lowest)).map Prod.fst

/-- Python lines 48-50: `notes_to_assign` after the anchor strings are
deleted, i.e. the pressed strings whose fret differs from the anchor fret. -/
def remainingOf (notes : List (Nat × Int)) (lowest : Int) : List (Nat × Int) :=
  notes.filter fun p => decide (¬ p.2 = lowest)

/-- `min` of a list of string indices (Python line 53, `min(anchor_notes_strings)`;
the list is provably non-empty there, the default 0 is never used). -/
def minStr : List Nat → Nat
  | [] => 0
  | s :: ss => ss.foldl min s

/-- `max` of a list of string indices (Python line 53, `max(anchor_notes_strings)`). -/
def maxStr : List Nat → Nat
  | [] => 0
  | s :: ss => ss.foldl max s

/-- Python lines 66-70: sort the remaining notes by `(fret, string)` and give
them fingers 2, 3, 4 in order (`available_fingers[i]` after the index finger
was popped). -/
def restAssign (remaining : List (Nat × Int)) : List (Nat × Int × Nat) :=
  ((sortLe (fun x y => decide (x.2 < y.2) || (decide (x.2 = y.2) && decide (x.1 ≤ y.1)))
      remaining).enum).map fun q => (q.2.1, q.2.2, q.1 + 2)

/-- Core of `_generate_assignment` (Python lines 26-72), as a function of the
pressed-note list.  Returns the optional assignment (a list of
`(string, fret, finger)` in Python dict insertion order) paired with the
message written to `last_analysis_summary` (`none` when untouched). -/
def generateAssignmentAux : List (Nat × Int) → Option (List (Nat × Int × Nat)) × Option Verdict
  | [] => (some [], none)
  | n0 :: rest =>
    let notes := n0 :: rest
    let lowest := lowestOf n0 rest
    let anchors := anchorsOf notes lowest
    let remaining := remainingOf notes lowest
    match remaining.find? fun p =>
        decide (minStr anchors < p.1) && decide (p.1 < maxStr anchors) &&
          decide (p.2 < lowest) with
    | some p => (none, some (Verdict.blocked p.2 p.1 lowest))
    | none =>
      if remaining.length > 3 then
        (none, some (Verdict.insufficient (remaining.length + 1)))
      else
        (some (anchors.map (fun s => (s, lowest, 1)) ++ restAssign remaining), none)

/-- `ChordDifficultyScorer._generate_assignment` (Python lines 26-72). -/
def generateAssignment (f : Fingering) : Option (List (Nat × Int × Nat)) × Option Verdict :=
  generateAssignmentAux (notesToFret f)

/-- Python line 95: the set of fingers used across the assignment values
(as a duplicate-free list; only its length is used). -/
def fingersUsed (a : List (Nat × Int × Nat)) : List Nat :=
  (a.map fun t => t.2.2).dedup

/-- `len(fingers_used)` (Python line 96). -/
def fingerCount (a : List (Nat × Int × Nat)) : Nat :=
  (fingersUsed a).length

/-- Python line 99: the list of fret values across the assignment values. -/
def fretsOf (a : List (Nat × Int × Nat)) : List Int :=
  a.map fun t => t.2.1

/-- `max(frets)` with default 0 for the empty list. -/
def maxFret (a : List (Nat × Int × Nat)) : Int :=
  match fretsOf a with
  | [] => 0
  | x :: xs => xs.foldl max x

/-- `min(frets)` with default 0 for the empty list. -/
def minFret (a : List (Nat × Int × Nat)) : Int :=
  match fretsOf a with
  | [] => 0
  | x :: xs => xs.foldl min x

/-- Python line 100: `fret_span = max(frets) - min(frets) if frets else 0`. -/
def fretSpan (a : List (Nat × Int × Nat)) : Int :=
  if fretsOf a = [] then 0 else maxFret a - minFret a

/-- Python line 105: `avg_fret = sum(frets) / len(frets) if frets else 0`. -/
def avgFret (a : List (Nat × Int × Nat)) : ℚ :=
  if fretsOf a = [] then 0 else ((fretsOf a).sum : ℚ) / ((fretsOf a).length : ℚ)

/-- Python lines 110-112: `finger_usage[finger]`, the number of strings a
finger presses. -/
def fingerUsage (a : List (Nat × Int × Nat)) (fg : Nat) : Nat :=
  (a.filter fun t => decide (t.2.2 = fg)).length

/-- Python line 114: the fingers pressing more than one string. -/
def barreFingers (a : List (Nat × Int × Nat)) : List Nat :=
  (fingersUsed a).filter fun fg => decide (1 < fingerUsage a fg)

/-- Python line 116: `barre_strings = sum(barres.values()) - len(barres)`. -/
def barreStrings (a : List (Nat × Int × Nat)) : Nat :=
  ((barreFingers a).map (fingerUsage a)).sum - (barreFingers a).length

/-- Python lines 114-120: the barre contribution to the score,
`BARRE_BASE + barre_strings * BARRE_LENGTH` when any barre exists. -/
def barreScore (a : List (Nat × Int × Nat)) : ℚ :=
  if barreFingers a = [] then 0 else 20 + (barreStrings a : ℚ) * 8

/-- Python line 122: `sorted_strings = sorted(assignment.keys())`. -/
def sortedStrings (a : List (Nat × Int × Nat)) : List Nat :=
  sortLe (fun x y => decide (x ≤ y)) (a.map fun t => t.1)

/-- Python line 123: the consecutive index pairs `(sorted_strings[i], sorted_strings[i+1])`. -/
def adjPairs (a : List (Nat × Int × Nat)) : List (Nat × Nat) :=
  (sortedStrings a).zip (sortedStrings a).tail

/-- Dict lookup `assignment[s]` (the keys are distinct, so `find?` matches it). -/
def lookupA (a : List (Nat × Int × Nat)) (s : Nat) : Option (Int × Nat) :=
  (a.find? fun t => decide (t.1 = s)).map fun t => t.2

/-- Python lines 128-130: the fret-inversion penalty of one consecutive
string pair: (fret1 - fret2) * 200 when fret1 > fret2. -/
def invPen (a : List (Nat × Int × Nat)) (p : Nat × Nat) : ℚ :=
  match lookupA a p.1, lookupA a p.2 with
  | some d1, some d2 => if d2.1 < d1.1 then ((d1.1 - d2.1 : Int) : ℚ) * 200 else 0
  | _, _ => 0

/-- Python lines 133-135: the finger-crossing penalty of one consecutive
string pair: the constant 50 when finger1 > finger2. -/
def crossPen (a : List (Nat × Int × Nat)) (p : Nat × Nat) : ℚ :=
  match lookupA a p.1, lookupA a p.2 with
  | some d1, some d2 => if d2.2 < d1.2 then 50 else 0
  | _, _ => 0

/-- Whether the finger-crossing condition of Python line 133 fires on a pair. -/
def crossBool (a : List (Nat × Int × Nat)) (p : Nat × Nat) : Bool :=
  match lookupA a p.1, lookupA a p.2 with
  | some d1, some d2 => decide (d2.2 < d1.2)
  | _, _ => false

/-- The log lines the pair loop appends for one consecutive string pair
(Python lines 131 and 136, in that order). -/
def pairLog (a : List (Nat × Int × Nat)) (p : Nat × Nat) : List LogEntry :=
  match lookupA a p.1, lookupA a p.2 with
  | some d1, some d2 =>
    (if d2.1 < d1.1 then [LogEntry.fretInversion p.1 p.2 (((d1.1 - d2.1 : Int) : ℚ) * 200)]
      else []) ++
    (if d2.2 < d1.2 then [LogEntry.fingerCrossing p.1 p.2] else [])
  | _, _ => []

/-- Total score added by the pair loop of Python lines 123-136. -/
def pairTotal (a : List (Nat × Int × Nat)) : ℚ :=
  ((adjPairs a).map fun p => invPen a p + crossPen a p).sum

/-- The fret-inversion part of the pair loop total. -/
def adjInvTotal (a : List (Nat × Int × Nat)) : ℚ :=
  ((adjPairs a).map fun p => invPen a p).sum

/-- The finger-crossing part of the pair loop total. -/
def adjCrossTotal (a : List (Nat × Int × Nat)) : ℚ :=
  ((adjPairs a).map fun p => crossPen a p).sum

/-- The number of consecutive string pairs on which the finger-crossing
condition fires. -/
def crossCount (a : List (Nat × Int × Nat)) : Nat :=
  ((adjPairs a).filter fun p => crossBool a p).length

/-- The full weighted score of a valid assignment, the sequential `score +=`
accumulation of Python lines 91-136 (weights 10, 15, 2, 20, 8, 200, 50 from
the `WEIGHTS` table). -/
def scoreOf (a : List (Nat × Int × Nat)) : ℚ :=
  (fingerCount a : ℚ) * 10 + (fretSpan a : ℚ) * 15 + avgFret a * 2 +
    barreScore a + pairTotal a

/-- The full analysis log of a valid assignment, in the order the code
appends the lines. -/
def logOf (a : List (Nat × Int × Nat)) : List LogEntry :=
  [LogEntry.fingersUsed (fingerCount a)] ++
  (if 0 < fretSpan a then [LogEntry.fretSpan (fretSpan a)] else []) ++
  (if 0 < avgFret a then [LogEntry.avgPosition (avgFret a)] else []) ++
  (if barreFingers a = [] then []
    else [LogEntry.barreDetected, LogEntry.barreLength (barreStrings a)]) ++
  ((adjPairs a).map fun p => pairLog a p).flatten

/-- Python line 138: `sorted(assignment.items())`, ascending string index. -/
def sortedAssign (a : List (Nat × Int × Nat)) : List (Nat × Int × Nat) :=
  sortLe (fun x y => decide (x.1 ≤ y.1)) a

/-- First G-major shape of the manual override (Python line 76). -/
def gShape1 : Fingering := [some 3, some 2, some 0, some 0, some 0, some 3]

/-- Second G-major shape of the manual override (Python line 76). -/
def gShape2 : Fingering := [some 3, some 2, some 0, some 0, some 3, some 3]

/-- Python line 76: `self.fingering in ([3, 2, 0, 0, 0, 3], [3, 2, 0, 0, 3, 3])`. -/
def isOverride (f : Fingering) : Bool :=
  decide (f = gShape1) || decide (f = gShape2)

/-- Python lines 77-81: the manually written G-major assignment, in dict
insertion order 0, 1, 5, 4. -/
def overrideAssignment (f : Fingering) : List (Nat × Int × Nat) :=
  let a0 : List (Nat × Int × Nat) := [(0, 3, 2), (1, 2, 1)]
  let a1 := if f.getD 5 none = some 3 then a0 ++ [(5, 3, 3)] else a0
  if f.getD 4 none = some 3 then a1 ++ [(4, 3, 4)] else a1

/-- Python lines 82-83 state handling: `_generate_assignment` overwrites
`last_analysis_summary` exactly when it fails, otherwise the prior state is
kept. -/
def afterGen (g : Option (List (Nat × Int × Nat)) × Option Verdict) (st : Option Verdict) :
    Option (List (Nat × Int × Nat)) × Option Verdict :=
  match g with
  | (a, some v) => (a, some v)
  | (a, none) => (a, st)

/-- Python lines 85-142 after the assignment is produced: `if not assignment`
(falsy for `None` and for the empty dict) branches on the truthiness of
`last_analysis_summary`; otherwise the weighted scoring runs. -/
def analyzeAux (r : Option (List (Nat × Int × Nat)) × Option Verdict) :
    (ℚ × Summary) × Option Verdict :=
  match r.1 with
  | some (x :: xs) =>
    ((scoreOf (x :: xs), Summary.report (sortedAssign (x :: xs)) (logOf (x :: xs))), r.2)
  | _ =>
    match r.2 with
    | some v => ((10000, Summary.verdict v), some v)
    | none => ((0, Summary.noNotes), none)

/-- `ChordDifficultyScorer.analyze` (Python lines 74-142), with the mutable
`last_analysis_summary` threaded as explicit state (input `st`, output the
state after the call).  A fresh scorer instance has state `none`. -/
def analyze (f : Fingering) (st : Option Verdict) : (ℚ × Summary) × Option Verdict :=
  analyzeAux
    (if isOverride f = true then (some (overrideAssignment f), st)
      else afterGen (generateAssignment f) st)

/-- The strings an assignment gives to the index finger (finger 1). -/
def indexStrings (a : List (Nat × Int × Nat)) : List Nat :=
  (a.filter fun t => decide (t.2.2 = 1)).map fun t => t.1

/-- The lowest pressed fret of a fingering (0 when nothing is pressed). -/
def minPressedFret (f : Fingering) : Int :=
  match notesToFret f with
  | [] => 0
  | n0 :: rest => lowestOf n0 rest

/-- max pressed fret − min pressed fret of a fingering (0 when nothing is
pressed). -/
def pressedSpan (f : Fingering) : Int :=
  match notesToFret f with
  | [] => 0
  | n0 :: rest => rest.foldl (fun m p => max m p.2) n0.2 - lowestOf n0 rest

/-- Modelled from the spec: the fixed maximum stretch threshold ("e.g. 4
frets") of the claimed hard limit check.  The code contains no such constant
and no such check. -/
def specMaxStretch : Int := 4

/-- All ordered pairs of a list, first component strictly before the second. -/
def allPairs : List α → List (α × α)
  | [] => []
  | p :: ps => (ps.map fun q => (p, q)) ++ allPairs ps

/-- Modelled from the spec (claim C4): the fret-inversion penalty summed over
EVERY pair of pressed strings ordered by string index, each violating pair
contributing (fret difference) × 200. -/
def specAllPairsInversion (f : Fingering) : ℚ :=
  ((allPairs (notesToFret f)).map fun pq =>
    if pq.2.2 < pq.1.2 then ((pq.1.2 - pq.2.2 : Int) : ℚ) * 200 else 0).sum

/-- Whether a `last_analysis_summary` state holds the blocked-by-barre
message. -/
def isBlockedVerdict : Option Verdict → Bool
  | some (Verdict.blocked _ _ _) => true
  | _ => false

/-- Whether a fingering entry counts as pressed (Python line 23:
`f is not None and f > 0`). -/
def pressedEntry : Option Int → Bool
  | some k => decide (0 < k)
  | none => false

example : notesToFret [some 3, some 2, some 0, none, some (-1), some 3] =
    [(0, 3), (1, 2), (5, 3)] := by decide

example : generateAssignment [some 1, some 3, some 3, some 2, some 1, some 1] =
    (some [(0, 1, 1), (4, 1, 1), (5, 1, 1), (3, 2, 2), (1, 3, 3), (2, 3, 4)], none) := by
  decide

example : generateAssignment [some 5, some 5, some 5, some 4, some 5, some 5] =
    (none, some (Verdict.insufficient 6)) := by decide

lemma foldl_min_snd_le (rest : List (Nat × Int)) (a : Int) :
    rest.foldl (fun m q => min m q.2) a ≤ a := by
  induction rest generalizing a with
  | nil => simp
  | cons q qs ih => exact le_trans (ih (min a q.2)) (min_le_left _ _)

lemma foldl_min_snd_le_mem (rest : List (Nat × Int)) (a : Int) (p : Nat × Int)
    (hp : p ∈ rest) : rest.foldl (fun m q => min m q.2) a ≤ p.2 := by
  induction rest generalizing a with
  | nil => cases hp
  | cons q qs ih =>
    rcases List.mem_cons.mp hp with rfl | hp2
    · exact le_trans (foldl_min_snd_le qs (min a p.2)) (min_le_right _ _)
    · exact ih (min a q.2) hp2

lemma lowestOf_le (n0 : Nat × Int) (rest : List (Nat × Int)) (p : Nat × Int)
    (hp : p ∈ n0 :: rest) : lowestOf n0 rest ≤ p.2 := by
  rcases List.mem_cons.mp hp with rfl | hp2
  · exact foldl_min_snd_le rest p.2
  · exact foldl_min_snd_le_mem rest n0.2 p hp2

lemma foldl_min_snd_mem (rest : List (Nat × Int)) (a : Int) :
    rest.foldl (fun m q => min m q.2) a = a ∨
      ∃ p ∈ rest, rest.foldl (fun m q => min m q.2) a = p.2 := by
  induction rest generalizing a with
  | nil => exact Or.inl rfl
  | cons q qs ih =>
    have hfold : (q :: qs).foldl (fun m r => min m r.2) a =
        qs.foldl (fun m r => min m r.2) (min a q.2) := rfl
    rcases ih (min a q.2) with h | ⟨p, hp, he⟩
    · rcases min_choice a q.2 with h2 | h2
      · exact Or.inl (by rw [hfold, h, h2])
      · exact Or.inr ⟨q, List.mem_cons_self q qs, by rw [hfold, h, h2]⟩
    · exact Or.inr ⟨p, List.mem_cons_of_mem q hp, by rw [hfold, he]⟩

lemma lowestOf_mem (n0 : Nat × Int) (rest : List (Nat × Int)) :
    ∃ p ∈ (n0 :: rest : List (Nat × Int)), p.2 = lowestOf n0 rest := by
  rcases foldl_min_snd_mem rest n0.2 with h | ⟨p, hp, he⟩
  · exact ⟨n0, List.mem_cons_self _ _, (by rw [lowestOf, h] : n0.2 = lowestOf n0 rest).symm.symm⟩
  · exact ⟨p, List.mem_cons_of_mem n0 hp, by rw [lowestOf, he]⟩

/-- The blocked-by-barre search of Python lines 54-57 finds nothing: every
remaining note has a fret strictly above the anchor fret, so the condition
`fret < lowest_fret` is unsatisfiable. -/
lemma blocked_find_none (n0 : Nat × Int) (rest : List (Nat × Int)) (anchors : List Nat) :
    (remainingOf (n0 :: rest) (lowestOf n0 rest)).find?
      (fun p => decide (minStr anchors < p.1) && decide (p.1 < maxStr anchors) &&
        decide (p.2 < lowestOf n0 rest)) = none := by
  apply List.find?_eq_none.mpr
  intro x hx
  have hmem : x ∈ (n0 :: rest : List (Nat × Int)) := List.mem_of_mem_filter hx
  have hle : lowestOf n0 rest ≤ x.2 := lowestOf_le n0 rest x hmem
  simp only [Bool.and_eq_true, decide_eq_true_eq, not_and]
  intro _ _
  omega

/-- `_generate_assignment` on a non-empty pressed-note list: the blocked
branch never fires, so the result is the insufficient-fingers verdict when
more than 3 non-anchor notes remain, and otherwise the anchor-plus-rest
assignment. -/
lemma generateAssignmentAux_cons (n0 : Nat × Int) (rest : List (Nat × Int)) :
    generateAssignmentAux (n0 :: rest) =
      (if (remainingOf (n0 :: rest) (lowestOf n0 rest)).length > 3 then
        (none, some (Verdict.insufficient
          ((remainingOf (n0 :: rest) (lowestOf n0 rest)).length + 1)))
      else
        (some ((anchorsOf (n0 :: rest) (lowestOf n0 rest)).map
            (fun s => (s, lowestOf n0 rest, 1)) ++
          restAssign (remainingOf (n0 :: rest) (lowestOf n0 rest))), none)) := by
  simp only [generateAssignmentAux, blocked_find_none]

lemma anchors_ne_nil (n0 : Nat × Int) (rest : List (Nat × Int)) :
    anchorsOf (n0 :: rest) (lowestOf n0 rest) ≠ [] := by
  obtain ⟨p, hp, he⟩ := lowestOf_mem n0 rest
  have hmem : p ∈ (n0 :: rest).filter (fun q => decide (q.2 = lowestOf n0 rest)) :=
    List.mem_filter.mpr ⟨hp, by simpa using he⟩
  intro hcon
  rw [anchorsOf, List.map_eq_nil_iff] at hcon
  rw [hcon] at hmem
  cases hmem

/-- Shape analysis of `_generate_assignment`: the result is the empty
assignment, an insufficient-fingers failure, or a non-empty assignment. -/
lemma gen_shape (f : Fingering) :
    generateAssignment f = (some [], none) ∨
    (∃ r, generateAssignment f = (none, some (Verdict.insufficient r))) ∨
    (∃ x xs, generateAssignment f = (some (x :: xs), none)) := by
  rw [generateAssignment]
  cases h : notesToFret f with
  | nil => exact Or.inl rfl
  | cons n0 rest =>
    rw [generateAssignmentAux_cons]
    by_cases h3 : (remainingOf (n0 :: rest) (lowestOf n0 rest)).length > 3
    · rw [if_pos h3]
      exact Or.inr (Or.inl ⟨_, rfl⟩)
    · rw [if_neg h3]
      rcases hcons : anchorsOf (n0 :: rest) (lowestOf n0 rest) with _ | ⟨s, ss⟩
      · exact absurd hcons (anchors_ne_nil n0 rest)
      · refine Or.inr (Or.inr ⟨(s, lowestOf n0 rest, 1),
          ss.map (fun t => (t, lowestOf n0 rest, 1)) ++
            restAssign (remainingOf (n0 :: rest) (lowestOf n0 rest)), ?_⟩)
        rw [List.map_cons, List.cons_append]

lemma gen_snd_some (f : Fingering) (v : Verdict)
    (h : (generateAssignment f).2 = some v) : generateAssignment f = (none, some v) := by
  rcases gen_shape f with h1 | ⟨r, h1⟩ | ⟨x, xs, h1⟩ <;> rw [h1] at h
  · cases h
  · injection h with h2
    rw [h1, h2]
  · cases h

lemma gen_fst_cons (f : Fingering) (x : Nat × Int × Nat) (xs : List (Nat × Int × Nat))
    (h : (generateAssignment f).1 = some (x :: xs)) :
    generateAssignment f = (some (x :: xs), none) := by
  rcases gen_shape f with h1 | ⟨r, h1⟩ | ⟨y, ys, h1⟩ <;> rw [h1] at h
  · injection h with h2
    cases h2
  · cases h
  · injection h with h2
    rw [h1, h2]

lemma bool_not_true {b : Bool} (h : ¬ b = true) : b = false := by
  cases b
  · rfl
  · exact absurd rfl h

/-- `analyze` on a fingering whose heuristic assignment succeeds non-empty:
the weighted scoring runs and the state is left untouched. -/
lemma analyze_success (f : Fingering) (x : Nat × Int × Nat) (xs : List (Nat × Int × Nat))
    (ho : isOverride f = false) (hg : generateAssignment f = (some (x :: xs), none))
    (st : Option Verdict) :
    analyze f st =
      ((scoreOf (x :: xs), Summary.report (sortedAssign (x :: xs)) (logOf (x :: xs))), st) := by
  rw [analyze, if_neg (by simp [ho]), hg]
  rfl

/-- `analyze` on a fingering whose heuristic fails: the sentinel 10000 is
returned with the failure message, which also becomes the new state. -/
lemma analyze_verdict (f : Fingering) (v : Verdict) (ho : isOverride f = false)
    (hv : (generateAssignment f).2 = some v) (st : Option Verdict) :
    analyze f st = ((10000, Summary.verdict v), some v) := by
  rw [analyze, if_neg (by simp [ho]), gen_snd_some f v hv]
  rfl

/-- `analyze` on a fingering with no pressed note and a fresh state. -/
lemma analyze_empty (f : Fingering) (ho : isOverride f = false)
    (hg : generateAssignment f = (some [], none)) :
    analyze f none = ((0, Summary.noNotes), none) := by
  rw [analyze, if_neg (by simp [ho]), hg]
  rfl

/-- `analyze` on one of the two hard-coded G-major shapes. -/
lemma analyze_override (f : Fingering) (x : Nat × Int × Nat) (xs : List (Nat × Int × Nat))
    (ho : isOverride f = true) (hoa : overrideAssignment f = x :: xs) (st : Option Verdict) :
    analyze f st =
      ((scoreOf (x :: xs), Summary.report (sortedAssign (x :: xs)) (logOf (x :: xs))), st) := by
  rw [analyze, if_pos ho, hoa]
  rfl

lemma indexStrings_append (l1 l2 : List (Nat × Int × Nat)) :
    indexStrings (l1 ++ l2) = indexStrings l1 ++ indexStrings l2 := by
  simp [indexStrings, List.filter_append]

lemma indexStrings_anchor (l : List Nat) (fr : Int) :
    indexStrings (l.map fun s => (s, fr, 1)) = l := by
  induction l with
  | nil => rfl
  | cons s ss ih => simpa [indexStrings] using ih

lemma indexStrings_rest (remaining : List (Nat × Int)) :
    indexStrings (restAssign remaining) = [] := by
  rw [indexStrings, List.map_eq_nil_iff, List.filter_eq_nil_iff]
  intro t ht
  rw [restAssign] at ht
  obtain ⟨q, hq, rfl⟩ := List.mem_map.mp ht
  simp only [decide_eq_true_eq]
  omega

/-- The fingering [5,5,5,4,5,5] of the blocked-by-barre scenario in the spec. -/
def exBarre : Fingering := [some 5, some 5, some 5, some 4, some 5, some 5]

/-- The fingering [3,4,5,6,5,5] of the insufficient-fingers scenario in the spec. -/
def exC7 : Fingering := [some 3, some 4, some 5, some 6, some 5, some 5]

/-- A fingering whose most frequent pressed fret (5, three strings) differs
from its lowest pressed fret (4, one string). -/
def exFreq : Fingering := [some 5, some 5, some 5, some 4, some 0, some 0]

/-- A two-string barre at fret 2. -/
def exPair : Fingering := [some 2, some 2, none, none, none, none]

/-- A fingering with six distinct pressed frets. -/
def exSix : Fingering := [some 1, some 2, some 3, some 4, some 5, some 6]

/-- A length-6 fingering in which every string is open, unplayed or muted. -/
def exOpen : Fingering := [some 0, none, some 0, some 0, some (-1), some 0]

/-- C10: the blocked-by-barre failure branch of the assignment heuristic is
unreachable: the anchor fret is the minimum pressed fret, so no remaining
pressed string can lie strictly below it, and `_generate_assignment` never
returns the blocked-by-the-index-finger-barre verdict, for any fingering. -/
theorem blocked_verdict_unreachable (f : Fingering) :
    isBlockedVerdict (generateAssignment f).2 = false := by
  rcases gen_shape f with h | ⟨r, h⟩ | ⟨x, xs, h⟩ <;> rw [h] <;> rfl

/-- C9: `analyze` is deterministic and idempotent.  With the one piece of
mutable state (`last_analysis_summary`) threaded explicitly, a second call on
the identical fingering — starting from the state the first call left behind —
returns the identical score, summary and state. -/
theorem analyze_idempotent (f : Fingering) :
    analyze f ((analyze f none).2) = analyze f none := by
  by_cases ho : isOverride f = true
  · have hf : f = gShape1 ∨ f = gShape2 := by
      have h2 := ho
      simp only [isOverride, Bool.or_eq_true, decide_eq_true_eq] at h2
      exact h2
    rcases hf with rfl | rfl
    · have h1 : overrideAssignment gShape1 = (0, 3, 2) :: [(1, 2, 1), (5, 3, 3)] := by decide
      rw [analyze_override _ _ _ ho h1 none]
      exact analyze_override _ _ _ ho h1 _
    · have h1 : overrideAssignment gShape2 =
          (0, 3, 2) :: [(1, 2, 1), (5, 3, 3), (4, 3, 4)] := by decide
      rw [analyze_override _ _ _ ho h1 none]
      exact analyze_override _ _ _ ho h1 _
  · have ho2 : isOverride f = false := bool_not_true ho
    rcases gen_shape f with h | ⟨r, h⟩ | ⟨x, xs, h⟩
    · rw [analyze_empty f ho2 h]
      exact analyze_empty f ho2 h
    · have hv : (generateAssignment f).2 = some (Verdict.insufficient r) := by rw [h]
      rw [analyze_verdict f _ ho2 hv none]
      exact analyze_verdict f _ ho2 hv _
    · rw [analyze_success f x xs ho2 h none]
      exact analyze_success f x xs ho2 h _

/-- C7: after the index finger takes the anchor fret, if more than 3 pressed
strings remain, `_generate_assignment` declares the shape impossible with a
reason carrying the total number of fingers that would be required
(the remaining count plus one for the index finger). -/
theorem insufficient_fingers_check (f : Fingering) (n0 : Nat × Int) (rest : List (Nat × Int))
    (h : notesToFret f = n0 :: rest)
    (h3 : 3 < (remainingOf (n0 :: rest) (lowestOf n0 rest)).length) :
    generateAssignment f =
      (none, some (Verdict.insufficient
        ((remainingOf (n0 :: rest) (lowestOf n0 rest)).length + 1))) := by
  rw [generateAssignment, h, generateAssignmentAux_cons, if_pos h3]

theorem insufficient_fingers_check_witness :
    notesToFret exC7 = (0, 3) :: [(1, 4), (2, 5), (3, 6), (4, 5), (5, 5)] ∧
    3 < (remainingOf ((0, 3) :: [(1, 4), (2, 5), (3, 6), (4, 5), (5, 5)])
      (lowestOf (0, 3) [(1, 4), (2, 5), (3, 6), (4, 5), (5, 5)])).length ∧
    generateAssignment exC7 = (none, some (Verdict.insufficient 6)) ∧
    analyze exC7 none =
      ((10000, Summary.verdict (Verdict.insufficient 6)), some (Verdict.insufficient 6)) :=
  ⟨by decide, by decide,
    (insufficient_fingers_check exC7 (0, 3) [(1, 4), (2, 5), (3, 6), (4, 5), (5, 5)]
      (by decide) (by decide)).trans (by decide), by decide⟩

/-- C8: a fingering in which every string is open or unplayed has an empty
pressed-note set, and `analyze` returns score 0 with the no-notes-to-play
report, leaving the state untouched; no weighted penalty is applied. -/
theorem all_open_score_zero (f : Fingering) (hlen : f.length = 6)
    (h : ∀ e ∈ f, pressedEntry e = false) :
    analyze f none = ((0, Summary.noNotes), none) := by
  have hnil : notesToFret f = [] := by
    rw [notesToFret, List.filterMap_eq_nil_iff]
    intro p hp
    obtain ⟨i, e⟩ := p
    have h2 : e ∈ f := by
      rw [List.enum_eq_zip_range] at hp
      exact (List.of_mem_zip hp).2
    cases e with
    | none => rfl
    | some fr =>
      have h3 := h (some fr) h2
      simp only [pressedEntry, decide_eq_false_iff_not] at h3
      simp [h3]
  have ho : isOverride f = false := by
    have h1 : ¬ f = gShape1 := by
      intro hcon
      have h4 := h (some 3) (by rw [hcon]; decide)
      simp [pressedEntry] at h4
    have h2 : ¬ f = gShape2 := by
      intro hcon
      have h4 := h (some 3) (by rw [hcon]; decide)
      simp [pressedEntry] at h4
    simp [isOverride, h1, h2]
  exact analyze_empty f ho (by rw [generateAssignment, hnil]; rfl)

theorem all_open_score_zero_witness :
    exOpen.length = 6 ∧ (∀ e ∈ exOpen, pressedEntry e = false) ∧
    analyze exOpen none = ((0, Summary.noNotes), none) :=
  ⟨by decide, by decide, all_open_score_zero exOpen (by decide) (by decide)⟩

/-- C6 (amended): every impossibility verdict is returned through the normal
result channel, as the fixed sentinel score 10000 paired with the reason. -/
theorem impossibility_sentinel_channel (f : Fingering) (v : Verdict)
    (ho : isOverride f = false) (hv : (generateAssignment f).2 = some v) :
    analyze f none = ((10000, Summary.verdict v), some v) :=
  analyze_verdict f v ho hv none

theorem impossibility_sentinel_channel_witness :
    isOverride exSix = false ∧
    (generateAssignment exSix).2 = some (Verdict.insufficient 6) ∧
    analyze exSix none =
      ((10000, Summary.verdict (Verdict.insufficient 6)), some (Verdict.insufficient 6)) :=
  ⟨by decide, by decide, impossibility_sentinel_channel exSix _ (by decide) (by decide)⟩

/-- C2 counterexample: on [5,5,5,4,5,5] the premise of the claim holds — at least 4
pressed strings share fret 5 and string 4 (index 3) is pressed strictly lower —
yet the result is not the blocked-by-barre verdict: the code anchors on the
minimum fret 4 and fails with insufficient fingers instead. -/
theorem barre_block_cex :
    ((notesToFret exBarre).filter fun p => decide (p.2 = 5)).length = 5 ∧
    (3, 4) ∈ notesToFret exBarre ∧ (4 : Int) < 5 ∧
    isBlockedVerdict (generateAssignment exBarre).2 = false ∧
    (analyze exBarre none).1.2 = Summary.verdict (Verdict.insufficient 6) := by
  decide

/-- C2 (amended): the fingering [5,5,5,4,5,5] yields the insufficient-fingers
impossibility verdict (6 fingers would be required), not the blocked-by-barre
one. -/
theorem barre_block_is_insufficient :
    analyze exBarre none =
      ((10000, Summary.verdict (Verdict.insufficient 6)), some (Verdict.insufficient 6)) := by
  decide

/-- C3 counterexample: on [5,5,5,4,0,0] fret 5 is the most frequent pressed
fret (3 strings, versus 1 for fret 4), yet the heuristic anchors the index
finger on the single string at the lowest fret 4, not on the fret-5 strings. -/
theorem barre_fret_cex :
    ((notesToFret exFreq).filter fun p => decide (p.2 = 5)).length = 3 ∧
    ((notesToFret exFreq).filter fun p => decide (p.2 = 4)).length = 1 ∧
    generateAssignment exFreq = (some [(3, 4, 1), (0, 5, 2), (1, 5, 3), (2, 5, 4)], none) ∧
    indexStrings [(3, 4, 1), (0, 5, 2), (1, 5, 3), (2, 5, 4)] = [3] := by
  decide

/-- C3 (amended): for every fingering on which the heuristic succeeds with a
non-empty assignment, the index finger is assigned to exactly the strings
pressed at the lowest pressed fret — regardless of which fret value is most
frequent. -/
theorem index_finger_on_min_fret (f : Fingering) (a : List (Nat × Int × Nat))
    (ha : (generateAssignment f).1 = some a) (hne : a ≠ []) :
    indexStrings a =
      ((notesToFret f).filter fun p => decide (p.2 = minPressedFret f)).map Prod.fst := by
  cases h : notesToFret f with
  | nil =>
    rw [generateAssignment, h] at ha
    injection ha with h2
    exact absurd h2.symm hne
  | cons n0 rest =>
    rw [generateAssignment, h, generateAssignmentAux_cons] at ha
    by_cases h3 : (remainingOf (n0 :: rest) (lowestOf n0 rest)).length > 3
    · rw [if_pos h3] at ha
      cases ha
    · rw [if_neg h3] at ha
      injection ha with h2
      have hm : minPressedFret f = lowestOf n0 rest := by
        simp only [minPressedFret, h]
      rw [← h2, indexStrings_append, indexStrings_anchor, indexStrings_rest,
        List.append_nil, hm]
      rfl

theorem index_finger_on_min_fret_witness :
    (generateAssignment exPair).1 = some [(0, 2, 1), (1, 2, 1)] ∧
    ([(0, 2, 1), (1, 2, 1)] : List (Nat × Int × Nat)) ≠ [] ∧
    indexStrings [(0, 2, 1), (1, 2, 1)] =
      ((notesToFret exPair).filter fun p => decide (p.2 = minPressedFret exPair)).map Prod.fst :=
  ⟨by decide, by decide, index_finger_on_min_fret exPair _ (by decide) (by decide)⟩

lemma sum_map_add (l : List α) (g1 g2 : α → ℚ) :
    (l.map fun x => g1 x + g2 x).sum = (l.map g1).sum + (l.map g2).sum := by
  induction l with
  | nil => simp
  | cons x xs ih =>
    simp only [List.map_cons, List.sum_cons, ih]
    ring

/-- The pair-loop total splits into its fret-inversion and finger-crossing
parts. -/
lemma pairTotal_split (a : List (Nat × Int × Nat)) :
    pairTotal a = adjInvTotal a + adjCrossTotal a := by
  rw [pairTotal, adjInvTotal, adjCrossTotal]
  exact sum_map_add _ _ _

lemma crossPen_eq (a : List (Nat × Int × Nat)) (p : Nat × Nat) :
    crossPen a p = if crossBool a p = true then (50 : ℚ) else 0 := by
  rw [crossPen, crossBool]
  rcases h1 : lookupA a p.1 with _ | d1 <;> rcases h2 : lookupA a p.2 with _ | d2 <;> simp

lemma sum_map_ite (l : List α) (q : α → Bool) (c : ℚ) :
    (l.map fun x => if q x = true then c else 0).sum = c * ((l.filter q).length : ℚ) := by
  induction l with
  | nil => simp
  | cons x xs ih =>
    by_cases hx : q x = true
    · rw [List.map_cons, List.sum_cons, ih, if_pos hx, List.filter_cons_of_pos hx,
        List.length_cons]
      push_cast
      ring
    · rw [List.map_cons, List.sum_cons, ih, if_neg hx,
        List.filter_cons_of_neg (by simpa using hx)]
      ring

/-- The finger-crossing part of the pair loop is 50 per crossing pair. -/
lemma adjCrossTotal_eq (a : List (Nat × Int × Nat)) :
    adjCrossTotal a = 50 * (crossCount a : ℚ) := by
  rw [adjCrossTotal, crossCount]
  simp only [crossPen_eq]
  exact sum_map_ite _ _ _

/-- [1,0,0,0,0,10]: two pressed strings nine frets apart. -/
def exStretch : Fingering := [some 1, some 0, some 0, some 0, some 0, some 10]

/-- A single pressed string at fret 1. -/
def exOne : Fingering := [some 1, none, none, none, none, none]

/-- [3,3,2,0,0,0]: strings 1 and 3 are a non-adjacent inverted pair. -/
def exInv : Fingering := [some 3, some 3, some 2, none, none, none]

/-- [2,1,0,0,0,0]: one adjacent pair with both a fret inversion and a finger
crossing. -/
def exCross : Fingering := [some 2, some 1, none, none, none, none]

/-- [100,1,0,0,0,0]: a playable fingering with a huge inversion penalty. -/
def exBig : Fingering := [some 100, some 1, some 0, some 0, some 0, some 0]

lemma exStretch_eval :
    analyze exStretch none =
      ((166, Summary.report [(0, 1, 1), (5, 10, 2)]
        [LogEntry.fingersUsed 2, LogEntry.fretSpan 9, LogEntry.avgPosition (11 / 2)]), none) := by
  have hg : generateAssignment exStretch = (some ((0, 1, 1) :: [(5, 10, 2)]), none) := by decide
  rw [analyze_success exStretch _ _ (by decide) hg none]
  have h1 : fingerCount ((0, 1, 1) :: [(5, 10, 2)]) = 2 := by decide
  have h2 : fretSpan ((0, 1, 1) :: [(5, 10, 2)]) = 9 := by decide
  have h3 : fretsOf ((0, 1, 1) :: [(5, 10, 2)]) = [1, 10] := by decide
  have h4 : barreFingers ((0, 1, 1) :: [(5, 10, 2)]) = [] := by decide
  have h6 : adjPairs ((0, 1, 1) :: [(5, 10, 2)]) = [(0, 5)] := by decide
  have h7 : lookupA ((0, 1, 1) :: [(5, 10, 2)]) 0 = some (1, 1) := by decide
  have h8 : lookupA ((0, 1, 1) :: [(5, 10, 2)]) 5 = some (10, 2) := by decide
  have hav : avgFret ((0, 1, 1) :: [(5, 10, 2)]) = 11 / 2 := by
    rw [avgFret, h3, if_neg (by simp)]
    norm_num
  have hinv : invPen ((0, 1, 1) :: [(5, 10, 2)]) (0, 5) = 0 := by
    simp only [invPen, h7, h8]
    norm_num
  have hcr : crossPen ((0, 1, 1) :: [(5, 10, 2)]) (0, 5) = 0 := by
    simp only [crossPen, h7, h8]
    norm_num
  have hpl : pairLog ((0, 1, 1) :: [(5, 10, 2)]) (0, 5) = [] := by
    simp only [pairLog, h7, h8]
    norm_num
  have hpt : pairTotal ((0, 1, 1) :: [(5, 10, 2)]) = 0 := by
    rw [pairTotal, h6, List.map_cons, List.map_nil, List.sum_cons, List.sum_nil, hinv, hcr]
    norm_num
  have hsc : scoreOf ((0, 1, 1) :: [(5, 10, 2)]) = 166 := by
    rw [scoreOf, h1, h2, hav, hpt, barreScore, h4, if_pos rfl]
    norm_num
  have hlog : logOf ((0, 1, 1) :: [(5, 10, 2)]) =
      [LogEntry.fingersUsed 2, LogEntry.fretSpan 9, LogEntry.avgPosition (11 / 2)] := by
    rw [logOf, h1, h2, hav, h4, h6, List.map_cons, List.map_nil, hpl]
    norm_num
  have hsa : sortedAssign ((0, 1, 1) :: [(5, 10, 2)]) = [(0, 1, 1), (5, 10, 2)] := by decide
  rw [hsc, hlog, hsa]

/-- C1 counterexample: [1,0,0,0,0,10] has pressed span 9, far above the
claimed threshold 4, yet `analyze` does not declare it impossible: it returns
an ordinary scored report (score 166, not the 10000 sentinel).  The code has
no excessive-stretch hard limit at all. -/
theorem span_hard_limit_cex :
    pressedSpan exStretch = 9 ∧ specMaxStretch < pressedSpan exStretch ∧
    analyze exStretch none =
      ((166, Summary.report [(0, 1, 1), (5, 10, 2)]
        [LogEntry.fingersUsed 2, LogEntry.fretSpan 9, LogEntry.avgPosition (11 / 2)]), none) ∧
    (166 : ℚ) ≠ 10000 :=
  ⟨by decide, by decide, exStretch_eval, by norm_num⟩

/-- C1 (amended): `analyze` applies no hard span limit.  For every fingering
whose heuristic assignment succeeds (non-empty), the result is an ordinary
scored report — never an impossibility verdict — and the fret span contributes
only the weighted term (span × 15) of the score. -/
theorem no_span_hard_limit (f : Fingering) (x : Nat × Int × Nat) (xs : List (Nat × Int × Nat))
    (ho : isOverride f = false) (hg : generateAssignment f = (some (x :: xs), none)) :
    (analyze f none).1 =
      ((fingerCount (x :: xs) : ℚ) * 10 + (fretSpan (x :: xs) : ℚ) * 15 +
        avgFret (x :: xs) * 2 + barreScore (x :: xs) + pairTotal (x :: xs),
       Summary.report (sortedAssign (x :: xs)) (logOf (x :: xs))) := by
  rw [analyze_success f x xs ho hg none]
  rfl

theorem no_span_hard_limit_witness :
    isOverride exOne = false ∧
    generateAssignment exOne = (some ((0, 1, 1) :: []), none) ∧
    (analyze exOne none).1 =
      ((fingerCount ((0, 1, 1) :: []) : ℚ) * 10 + (fretSpan ((0, 1, 1) :: []) : ℚ) * 15 +
        avgFret ((0, 1, 1) :: []) * 2 + barreScore ((0, 1, 1) :: []) + pairTotal ((0, 1, 1) :: []),
       Summary.report (sortedAssign ((0, 1, 1) :: [])) (logOf ((0, 1, 1) :: []))) :=
  ⟨by decide, by decide, no_span_hard_limit exOne _ _ (by decide) (by decide)⟩

lemma exInv_avg : avgFret ((2, 2, 1) :: [(0, 3, 2), (1, 3, 3)]) = 8 / 3 := by
  rw [avgFret, show fretsOf ((2, 2, 1) :: [(0, 3, 2), (1, 3, 3)]) = [2, 3, 3] from by decide,
    if_neg (by simp)]
  norm_num

lemma exInv_adjInv : adjInvTotal ((2, 2, 1) :: [(0, 3, 2), (1, 3, 3)]) = 200 := by
  have h7 : lookupA ((2, 2, 1) :: [(0, 3, 2), (1, 3, 3)]) 0 = some (3, 2) := by decide
  have h8 : lookupA ((2, 2, 1) :: [(0, 3, 2), (1, 3, 3)]) 1 = some (3, 3) := by decide
  have h9 : lookupA ((2, 2, 1) :: [(0, 3, 2), (1, 3, 3)]) 2 = some (2, 1) := by decide
  have hinv1 : invPen ((2, 2, 1) :: [(0, 3, 2), (1, 3, 3)]) (0, 1) = 0 := by
    simp only [invPen, h7, h8]
    norm_num
  have hinv2 : invPen ((2, 2, 1) :: [(0, 3, 2), (1, 3, 3)]) (1, 2) = 200 := by
    simp only [invPen, h8, h9]
    norm_num
  rw [adjInvTotal,
    show adjPairs ((2, 2, 1) :: [(0, 3, 2), (1, 3, 3)]) = [(0, 1), (1, 2)] from by decide,
    List.map_cons, List.map_cons, List.map_nil, List.sum_cons, List.sum_cons, List.sum_nil,
    hinv1, hinv2]
  norm_num

lemma exInv_adjCross : adjCrossTotal ((2, 2, 1) :: [(0, 3, 2), (1, 3, 3)]) = 50 := by
  have h7 : lookupA ((2, 2, 1) :: [(0, 3, 2), (1, 3, 3)]) 0 = some (3, 2) := by decide
  have h8 : lookupA ((2, 2, 1) :: [(0, 3, 2), (1, 3, 3)]) 1 = some (3, 3) := by decide
  have h9 : lookupA ((2, 2, 1) :: [(0, 3, 2), (1, 3, 3)]) 2 = some (2, 1) := by decide
  have hcr1 : crossPen ((2, 2, 1) :: [(0, 3, 2), (1, 3, 3)]) (0, 1) = 0 := by
    simp only [crossPen, h7, h8]
    norm_num
  have hcr2 : crossPen ((2, 2, 1) :: [(0, 3, 2), (1, 3, 3)]) (1, 2) = 50 := by
    simp only [crossPen, h8, h9]
    norm_num
  rw [adjCrossTotal,
    show adjPairs ((2, 2, 1) :: [(0, 3, 2), (1, 3, 3)]) = [(0, 1), (1, 2)] from by decide,
    List.map_cons, List.map_cons, List.map_nil, List.sum_cons, List.sum_cons, List.sum_nil,
    hcr1, hcr2]
  norm_num

lemma exInv_score : scoreOf ((2, 2, 1) :: [(0, 3, 2), (1, 3, 3)]) = 901 / 3 := by
  rw [scoreOf, show fingerCount ((2, 2, 1) :: [(0, 3, 2), (1, 3, 3)]) = 3 from by decide,
    show fretSpan ((2, 2, 1) :: [(0, 3, 2), (1, 3, 3)]) = 1 from by decide,
    exInv_avg, pairTotal_split, exInv_adjInv, exInv_adjCross, barreScore,
    show barreFingers ((2, 2, 1) :: [(0, 3, 2), (1, 3, 3)]) = [] from by decide, if_pos rfl]
  norm_num

lemma exInv_eval :
    analyze exInv none =
      ((901 / 3, Summary.report [(0, 3, 2), (1, 3, 3), (2, 2, 1)]
        [LogEntry.fingersUsed 3, LogEntry.fretSpan 1, LogEntry.avgPosition (8 / 3),
         LogEntry.fretInversion 1 2 200, LogEntry.fingerCrossing 1 2]), none) := by
  rw [analyze_success exInv (2, 2, 1) [(0, 3, 2), (1, 3, 3)] (by decide) (by decide) none]
  have h7 : lookupA ((2, 2, 1) :: [(0, 3, 2), (1, 3, 3)]) 0 = some (3, 2) := by decide
  have h8 : lookupA ((2, 2, 1) :: [(0, 3, 2), (1, 3, 3)]) 1 = some (3, 3) := by decide
  have h9 : lookupA ((2, 2, 1) :: [(0, 3, 2), (1, 3, 3)]) 2 = some (2, 1) := by decide
  have hpl1 : pairLog ((2, 2, 1) :: [(0, 3, 2), (1, 3, 3)]) (0, 1) = [] := by
    simp only [pairLog, h7, h8]
    norm_num
  have hpl2 : pairLog ((2, 2, 1) :: [(0, 3, 2), (1, 3, 3)]) (1, 2) =
      [LogEntry.fretInversion 1 2 200, LogEntry.fingerCrossing 1 2] := by
    simp only [pairLog, h8, h9]
    norm_num
  have hlog : logOf ((2, 2, 1) :: [(0, 3, 2), (1, 3, 3)]) =
      [LogEntry.fingersUsed 3, LogEntry.fretSpan 1, LogEntry.avgPosition (8 / 3),
       LogEntry.fretInversion 1 2 200, LogEntry.fingerCrossing 1 2] := by
    rw [logOf, show fingerCount ((2, 2, 1) :: [(0, 3, 2), (1, 3, 3)]) = 3 from by decide,
      show fretSpan ((2, 2, 1) :: [(0, 3, 2), (1, 3, 3)]) = 1 from by decide,
      exInv_avg,
      show barreFingers ((2, 2, 1) :: [(0, 3, 2), (1, 3, 3)]) = [] from by decide,
      show adjPairs ((2, 2, 1) :: [(0, 3, 2), (1, 3, 3)]) = [(0, 1), (1, 2)] from by decide,
      List.map_cons, List.map_cons, List.map_nil, hpl1, hpl2]
    norm_num
  rw [exInv_score, hlog,
    show sortedAssign ((2, 2, 1) :: [(0, 3, 2), (1, 3, 3)]) =
      [(0, 3, 2), (1, 3, 3), (2, 2, 1)] from by decide]

lemma exInv_spec : specAllPairsInversion exInv = 400 := by
  rw [specAllPairsInversion, show notesToFret exInv = [(0, 3), (1, 3), (2, 2)] from by decide]
  norm_num [allPairs]

/-- C4 counterexample: on [3,3,2,0,0,0] the strings are pressed at frets
3, 3, 2, so the all-pairs reading of the claim counts two violating pairs
(strings 1-3 and 2-3, 400 total) while the code penalizes only the adjacent
pair 2-3 (200 total): the realized score is 901/3, which differs from what
the claimed all-pairs formula yields. -/
theorem inversion_all_pairs_cex :
    generateAssignment exInv = (some ((2, 2, 1) :: [(0, 3, 2), (1, 3, 3)]), none) ∧
    adjInvTotal ((2, 2, 1) :: [(0, 3, 2), (1, 3, 3)]) = 200 ∧
    specAllPairsInversion exInv = 400 ∧
    (analyze exInv none).1.1 = 901 / 3 ∧
    (analyze exInv none).1.1 ≠
      (fingerCount ((2, 2, 1) :: [(0, 3, 2), (1, 3, 3)]) : ℚ) * 10 +
        (fretSpan ((2, 2, 1) :: [(0, 3, 2), (1, 3, 3)]) : ℚ) * 15 +
        avgFret ((2, 2, 1) :: [(0, 3, 2), (1, 3, 3)]) * 2 +
        barreScore ((2, 2, 1) :: [(0, 3, 2), (1, 3, 3)]) +
        specAllPairsInversion exInv + adjCrossTotal ((2, 2, 1) :: [(0, 3, 2), (1, 3, 3)]) := by
  refine ⟨by decide, exInv_adjInv, exInv_spec, by rw [exInv_eval], ?_⟩
  rw [exInv_eval, show fingerCount ((2, 2, 1) :: [(0, 3, 2), (1, 3, 3)]) = 3 from by decide,
    show fretSpan ((2, 2, 1) :: [(0, 3, 2), (1, 3, 3)]) = 1 from by decide,
    exInv_avg, exInv_spec, exInv_adjCross, barreScore,
    show barreFingers ((2, 2, 1) :: [(0, 3, 2), (1, 3, 3)]) = [] from by decide, if_pos rfl]
  norm_num

/-- C4 (amended): the fret-inversion penalty is summed over the ADJACENT
pairs of pressed strings in ascending string-index order only: for every
fingering whose assignment succeeds, the score decomposes into the weighted
terms plus the adjacent-pair inversion sum plus the adjacent-pair crossing
sum. -/
theorem inversion_adjacent_pairs (f : Fingering) (x : Nat × Int × Nat)
    (xs : List (Nat × Int × Nat)) (ho : isOverride f = false)
    (hg : generateAssignment f = (some (x :: xs), none)) :
    (analyze f none).1.1 =
      (fingerCount (x :: xs) : ℚ) * 10 + (fretSpan (x :: xs) : ℚ) * 15 +
        avgFret (x :: xs) * 2 + barreScore (x :: xs) +
        adjInvTotal (x :: xs) + adjCrossTotal (x :: xs) := by
  rw [analyze_success f x xs ho hg none]
  show scoreOf (x :: xs) = _
  rw [scoreOf, pairTotal_split]
  ring

theorem inversion_adjacent_pairs_witness :
    isOverride exInv = false ∧
    generateAssignment exInv = (some ((2, 2, 1) :: [(0, 3, 2), (1, 3, 3)]), none) ∧
    (analyze exInv none).1.1 =
      (fingerCount ((2, 2, 1) :: [(0, 3, 2), (1, 3, 3)]) : ℚ) * 10 +
        (fretSpan ((2, 2, 1) :: [(0, 3, 2), (1, 3, 3)]) : ℚ) * 15 +
        avgFret ((2, 2, 1) :: [(0, 3, 2), (1, 3, 3)]) * 2 +
        barreScore ((2, 2, 1) :: [(0, 3, 2), (1, 3, 3)]) +
        adjInvTotal ((2, 2, 1) :: [(0, 3, 2), (1, 3, 3)]) +
        adjCrossTotal ((2, 2, 1) :: [(0, 3, 2), (1, 3, 3)]) :=
  ⟨by decide, by decide, inversion_adjacent_pairs exInv _ _ (by decide) (by decide)⟩

lemma exCross_eval :
    analyze exCross none =
      ((288, Summary.report [(0, 2, 2), (1, 1, 1)]
        [LogEntry.fingersUsed 2, LogEntry.fretSpan 1, LogEntry.avgPosition (3 / 2),
         LogEntry.fretInversion 0 1 200, LogEntry.fingerCrossing 0 1]), none) := by
  rw [analyze_success exCross (1, 1, 1) [(0, 2, 2)] (by decide) (by decide) none]
  have h7 : lookupA ((1, 1, 1) :: [(0, 2, 2)]) 0 = some (2, 2) := by decide
  have h8 : lookupA ((1, 1, 1) :: [(0, 2, 2)]) 1 = some (1, 1) := by decide
  have hav : avgFret ((1, 1, 1) :: [(0, 2, 2)]) = 3 / 2 := by
    rw [avgFret, show fretsOf ((1, 1, 1) :: [(0, 2, 2)]) = [1, 2] from by decide,
      if_neg (by simp)]
    norm_num
  have hinv : invPen ((1, 1, 1) :: [(0, 2, 2)]) (0, 1) = 200 := by
    simp only [invPen, h7, h8]
    norm_num
  have hcr : crossPen ((1, 1, 1) :: [(0, 2, 2)]) (0, 1) = 50 := by
    simp only [crossPen, h7, h8]
    norm_num
  have hpl : pairLog ((1, 1, 1) :: [(0, 2, 2)]) (0, 1) =
      [LogEntry.fretInversion 0 1 200, LogEntry.fingerCrossing 0 1] := by
    simp only [pairLog, h7, h8]
    norm_num
  have hpt : pairTotal ((1, 1, 1) :: [(0, 2, 2)]) = 250 := by
    rw [pairTotal, show adjPairs ((1, 1, 1) :: [(0, 2, 2)]) = [(0, 1)] from by decide,
      List.map_cons, List.map_nil, List.sum_cons, List.sum_nil, hinv, hcr]
    norm_num
  have hsc : scoreOf ((1, 1, 1) :: [(0, 2, 2)]) = 288 := by
    rw [scoreOf, show fingerCount ((1, 1, 1) :: [(0, 2, 2)]) = 2 from by decide,
      show fretSpan ((1, 1, 1) :: [(0, 2, 2)]) = 1 from by decide, hav, hpt, barreScore,
      show barreFingers ((1, 1, 1) :: [(0, 2, 2)]) = [] from by decide, if_pos rfl]
    norm_num
  have hlog : logOf ((1, 1, 1) :: [(0, 2, 2)]) =
      [LogEntry.fingersUsed 2, LogEntry.fretSpan 1, LogEntry.avgPosition (3 / 2),
       LogEntry.fretInversion 0 1 200, LogEntry.fingerCrossing 0 1] := by
    rw [logOf, show fingerCount ((1, 1, 1) :: [(0, 2, 2)]) = 2 from by decide,
      show fretSpan ((1, 1, 1) :: [(0, 2, 2)]) = 1 from by decide, hav,
      show barreFingers ((1, 1, 1) :: [(0, 2, 2)]) = [] from by decide,
      show adjPairs ((1, 1, 1) :: [(0, 2, 2)]) = [(0, 1)] from by decide,
      List.map_cons, List.map_nil, hpl]
    norm_num
  rw [hsc, hlog,
    show sortedAssign ((1, 1, 1) :: [(0, 2, 2)]) = [(0, 2, 2), (1, 1, 1)] from by decide]

/-- C5 counterexample: on [2,1,0,0,0,0] the realized report contains an
explicit finger-crossing log line and the score includes its 50-point
penalty — the model in the code retains the finger-crossing penalty and has no
variance term (the score 288 is exactly 20+15+3+200+50, leaving no room for
any standard-deviation contribution). -/
theorem variance_term_cex :
    analyze exCross none =
      ((288, Summary.report [(0, 2, 2), (1, 1, 1)]
        [LogEntry.fingersUsed 2, LogEntry.fretSpan 1, LogEntry.avgPosition (3 / 2),
         LogEntry.fretInversion 0 1 200, LogEntry.fingerCrossing 0 1]), none) ∧
    LogEntry.fingerCrossing 0 1 ∈ logOf ((1, 1, 1) :: [(0, 2, 2)]) ∧
    crossPen ((1, 1, 1) :: [(0, 2, 2)]) (0, 1) = 50 ∧
    crossCount ((1, 1, 1) :: [(0, 2, 2)]) = 1 ∧
    (288 : ℚ) = 2 * 10 + 1 * 15 + (3 / 2) * 2 + 200 + 50 := by
  refine ⟨exCross_eval, ?_, ?_, by decide, by norm_num⟩
  · have h7 : lookupA ((1, 1, 1) :: [(0, 2, 2)]) 0 = some (2, 2) := by decide
    have h8 : lookupA ((1, 1, 1) :: [(0, 2, 2)]) 1 = some (1, 1) := by decide
    have hpl : pairLog ((1, 1, 1) :: [(0, 2, 2)]) (0, 1) =
        [LogEntry.fretInversion 0 1 200, LogEntry.fingerCrossing 0 1] := by
      simp only [pairLog, h7, h8]
      norm_num
    rw [logOf, show adjPairs ((1, 1, 1) :: [(0, 2, 2)]) = [(0, 1)] from by decide,
      List.map_cons, List.map_nil, hpl]
    simp
  · have h7 : lookupA ((1, 1, 1) :: [(0, 2, 2)]) 0 = some (2, 2) := by decide
    have h8 : lookupA ((1, 1, 1) :: [(0, 2, 2)]) 1 = some (1, 1) := by decide
    simp only [crossPen, h7, h8]
    norm_num

/-- C5 (amended): the scorer has no internal-stretch-variance term; instead
it retains the explicit finger-crossing penalty: for every fingering whose
assignment succeeds, the score is exactly the weighted terms plus the
adjacent-pair inversion sum plus 50 per adjacent finger-crossing pair —
no standard-deviation term appears. -/
theorem crossing_penalty_retained (f : Fingering) (x : Nat × Int × Nat)
    (xs : List (Nat × Int × Nat)) (ho : isOverride f = false)
    (hg : generateAssignment f = (some (x :: xs), none)) :
    (analyze f none).1.1 =
      (fingerCount (x :: xs) : ℚ) * 10 + (fretSpan (x :: xs) : ℚ) * 15 +
        avgFret (x :: xs) * 2 + barreScore (x :: xs) +
        adjInvTotal (x :: xs) + 50 * (crossCount (x :: xs) : ℚ) := by
  rw [analyze_success f x xs ho hg none]
  show scoreOf (x :: xs) = _
  rw [scoreOf, pairTotal_split, adjCrossTotal_eq]
  ring

theorem crossing_penalty_retained_witness :
    isOverride exCross = false ∧
    generateAssignment exCross = (some ((1, 1, 1) :: [(0, 2, 2)]), none) ∧
    (analyze exCross none).1.1 =
      (fingerCount ((1, 1, 1) :: [(0, 2, 2)]) : ℚ) * 10 +
        (fretSpan ((1, 1, 1) :: [(0, 2, 2)]) : ℚ) * 15 +
        avgFret ((1, 1, 1) :: [(0, 2, 2)]) * 2 + barreScore ((1, 1, 1) :: [(0, 2, 2)]) +
        adjInvTotal ((1, 1, 1) :: [(0, 2, 2)]) +
        50 * (crossCount ((1, 1, 1) :: [(0, 2, 2)]) : ℚ) :=
  ⟨by decide, by decide, crossing_penalty_retained exCross _ _ (by decide) (by decide)⟩

lemma exBig_eval :
    analyze exBig none =
      ((21456, Summary.report [(0, 100, 2), (1, 1, 1)]
        [LogEntry.fingersUsed 2, LogEntry.fretSpan 99, LogEntry.avgPosition (101 / 2),
         LogEntry.fretInversion 0 1 19800, LogEntry.fingerCrossing 0 1]), none) := by
  rw [analyze_success exBig (1, 1, 1) [(0, 100, 2)] (by decide) (by decide) none]
  have h7 : lookupA ((1, 1, 1) :: [(0, 100, 2)]) 0 = some (100, 2) := by decide
  have h8 : lookupA ((1, 1, 1) :: [(0, 100, 2)]) 1 = some (1, 1) := by decide
  have hav : avgFret ((1, 1, 1) :: [(0, 100, 2)]) = 101 / 2 := by
    rw [avgFret, show fretsOf ((1, 1, 1) :: [(0, 100, 2)]) = [1, 100] from by decide,
      if_neg (by simp)]
    norm_num
  have hinv : invPen ((1, 1, 1) :: [(0, 100, 2)]) (0, 1) = 19800 := by
    simp only [invPen, h7, h8]
    norm_num
  have hcr : crossPen ((1, 1, 1) :: [(0, 100, 2)]) (0, 1) = 50 := by
    simp only [crossPen, h7, h8]
    norm_num
  have hpl : pairLog ((1, 1, 1) :: [(0, 100, 2)]) (0, 1) =
      [LogEntry.fretInversion 0 1 19800, LogEntry.fingerCrossing 0 1] := by
    simp only [pairLog, h7, h8]
    norm_num
  have hpt : pairTotal ((1, 1, 1) :: [(0, 100, 2)]) = 19850 := by
    rw [pairTotal, show adjPairs ((1, 1, 1) :: [(0, 100, 2)]) = [(0, 1)] from by decide,
      List.map_cons, List.map_nil, List.sum_cons, List.sum_nil, hinv, hcr]
    norm_num
  have hsc : scoreOf ((1, 1, 1) :: [(0, 100, 2)]) = 21456 := by
    rw [scoreOf, show fingerCount ((1, 1, 1) :: [(0, 100, 2)]) = 2 from by decide,
      show fretSpan ((1, 1, 1) :: [(0, 100, 2)]) = 99 from by decide, hav, hpt, barreScore,
      show barreFingers ((1, 1, 1) :: [(0, 100, 2)]) = [] from by decide, if_pos rfl]
    norm_num
  have hlog : logOf ((1, 1, 1) :: [(0, 100, 2)]) =
      [LogEntry.fingersUsed 2, LogEntry.fretSpan 99, LogEntry.avgPosition (101 / 2),
       LogEntry.fretInversion 0 1 19800, LogEntry.fingerCrossing 0 1] := by
    rw [logOf, show fingerCount ((1, 1, 1) :: [(0, 100, 2)]) = 2 from by decide,
      show fretSpan ((1, 1, 1) :: [(0, 100, 2)]) = 99 from by decide, hav,
      show barreFingers ((1, 1, 1) :: [(0, 100, 2)]) = [] from by decide,
      show adjPairs ((1, 1, 1) :: [(0, 100, 2)]) = [(0, 1)] from by decide,
      List.map_cons, List.map_nil, hpl]
    norm_num
  rw [hsc, hlog,
    show sortedAssign ((1, 1, 1) :: [(0, 100, 2)]) = [(0, 100, 2), (1, 1, 1)] from by decide]

/-- C6 counterexample: [100,1,0,0,0,0] is playable (the heuristic succeeds,
no verdict is produced) yet its weighted score 21456 exceeds the 10000
sentinel: the sentinel is NOT strictly greater than the score of every
playable fingering. -/
theorem sentinel_not_ceiling_cex :
    analyze exBig none =
      ((21456, Summary.report [(0, 100, 2), (1, 1, 1)]
        [LogEntry.fingersUsed 2, LogEntry.fretSpan 99, LogEntry.avgPosition (101 / 2),
         LogEntry.fretInversion 0 1 19800, LogEntry.fingerCrossing 0 1]), none) ∧
    (generateAssignment exBig).2 = none ∧
    (10000 : ℚ) < 21456 :=
  ⟨exBig_eval, by decide, by norm_num⟩

end JazzFretboard
